import Mathlib

/-! Shallow embedding of the YouTube downloader's orchestration engine
(`src/app.py`, class `YouTubeDownloader`): the retry/backoff loop of
`download_video`, the inline error-message classification it performs, the
stream-selection fallback, the best-effort title fallback, and the
`_on_progress` conversion.  The behavior of the upstream collaborator
(pytube) during each loop iteration is an explicit environment value. -/

/-- An exception reaching the handlers of the download loop: pytube's
`RegexMatchError` or `HTMLParseError`, or any other `Exception`; each
carries its `str(e)` message. -/
inductive PyExc where
  | regexMatchError (msg : String)
  | htmlParseError (msg : String)
  | other (msg : String)
  deriving Repr, DecidableEq

/-- Bool test: `pat` is a leading segment of `l` (character lists). -/
def chStartsWith : List Char → List Char → Bool
  | [], _ => true
  | _ :: _, [] => false
  | a :: as, b :: bs => a == b && chStartsWith as bs

/-- Bool test: `pat` occurs as a contiguous substring of the list. -/
def chContains (pat : List Char) : List Char → Bool
  | [] => chStartsWith pat []
  | c :: rest => chStartsWith pat (c :: rest) || chContains pat rest

/-- Python's `needle in hay` on strings: contiguous substring test. -/
def strContains (hay needle : String) : Bool :=
  chContains needle.toList hay.toList

/-- Worker for `pySplit`: walks the character list once; `acc` holds the
current token reversed, and `skip` counts separator characters still to be
consumed after a match.  Matches are found left to right and do not
overlap, exactly as in Python's `str.split`. -/
def chSplitGo (sep : List Char) : List Char → List Char → Nat → List (List Char)
  | [], acc, _ => [acc.reverse]
  | _ :: rest, acc, skip + 1 => chSplitGo sep rest acc skip
  | c :: rest, acc, 0 =>
    if chStartsWith sep (c :: rest) then
      acc.reverse :: chSplitGo sep rest [] (sep.length - 1)
    else
      chSplitGo sep rest (c :: acc) 0

/-- Python's `s.split(sep)` for a non-empty separator: the list of tokens
between non-overlapping occurrences of `sep`, scanned left to right,
keeping empty tokens. -/
def pySplit (s sep : String) : List String :=
  (chSplitGo sep.toList s.toList [] 0).map String.mk

/-- Python's `s.lower()`, restricted to ASCII case mapping (the markers this
program compares against are all ASCII). -/
def pyLower (s : String) : String :=
  String.mk (s.toList.map Char.toLower)

/-- `src/app.py` line 116: messages treated as potentially-fixable
(transient) rejections, via `any(x in error_str for x in [...])`. -/
def isTransientMsg (msg : String) : Bool :=
  ["HTTP Error 400", "Bad Request", "title", "Exception while accessing"].any
    (fun x => strContains msg x)

/-- `src/app.py` line 130: restriction markers, checked on the lowercased
message: `"age"`, `"restrict"`, or `"unavailable"`. -/
def isRestrictedMsg (msg : String) : Bool :=
  strContains (pyLower msg) "age" || strContains (pyLower msg) "restrict" ||
    strContains (pyLower msg) "unavailable"

/-- `src/app.py` line 65: the fallback video id,
`url.split("v=")[1].split("&")[0] if "v=" in url else "unknown"`. -/
def extract_video_id (url : String) : String :=
  if strContains url "v=" then
    ((pySplit ((pySplit url "v=").getD 1 "") "&").getD 0 "")
  else "unknown"

/-- One available encoding (stream descriptor), reduced to the attribute the
engine consults: its resolution label, for example "720p". -/
structure StreamDesc where
  res : String
  deriving Repr, DecidableEq

/-- Numeric value of a resolution label: its leading digits read as a
decimal number ("720p" gives 720). -/
def resValue (r : String) : Nat :=
  (r.toList.takeWhile Char.isDigit).foldl
    (fun acc c => acc * 10 + (c.toNat - 48)) 0

/-- Modelled from the spec: the upstream collaborator's
`streams.get_highest_resolution()` query (spec §4.1, `highest`): the
descriptor with the maximum quality ordering (earlier descriptor kept on
ties), or `none` when no descriptor is available.  pytube itself is not part
of this repository. -/
def get_highest_resolution (ss : List StreamDesc) : Option StreamDesc :=
  ss.foldl
    (fun best s =>
      match best with
      | none => some s
      | some b => if resValue b.res < resValue s.res then some s else some b)
    none

/-- Modelled from the spec: `streams.get_lowest_resolution()` (spec §4.1,
`lowest`): the descriptor with the minimum quality ordering. -/
def get_lowest_resolution (ss : List StreamDesc) : Option StreamDesc :=
  ss.foldl
    (fun best s =>
      match best with
      | none => some s
      | some b => if resValue s.res < resValue b.res then some s else some b)
    none

deriving instance DecidableEq for Except

/-- What the upstream collaborator (pytube) does during one iteration of the
download loop: whether constructing the `YouTube` object raises, whether
`yt.title` succeeds (`none` means it raises; that exception is caught
locally), which streams are available, and what `video.download` returns
(`Except.error` means it raises). -/
structure AttemptEnv where
  constructExc : Option PyExc
  titleResult : Option String
  streams : List StreamDesc
  downloadResult : Except PyExc String
  deriving Repr, DecidableEq

/-- Result of the `try` body of one loop iteration: either a `return` from
inside the `try` (carrying the returned `(path, message)` pair) or an
exception reaching the `except` handlers. -/
inductive TryResult where
  | ret (path : Option String) (msg : String)
  | exc (e : PyExc)
  deriving Repr, DecidableEq

/-- `src/app.py` lines 45-94, the `try` body of one loop iteration:
construct the `YouTube` object; resolve the title, falling back to
`"youtube_" ++ extract_video_id url` when `yt.title` raises; select a
stream (`get_highest_resolution` / `get_lowest_resolution` /
`filter(res=resolution).first()`), with the one-shot fallback to highest
(line 85) for explicit labels; then download.  The second component counts
how many fallback re-selections were performed (0 or 1). -/
def runAttempt (e : AttemptEnv) (url resolution : String) : TryResult × Nat :=
  match e.constructExc with
  | some ex => (.exc ex, 0)
  | none =>
    let title :=
      match e.titleResult with
      | some t => t
      | none => "youtube_" ++ extract_video_id url
    let video :=
      if resolution = "highest" then get_highest_resolution e.streams
      else if resolution = "lowest" then get_lowest_resolution e.streams
      else e.streams.find? (fun s => s.res == resolution)
    match video with
    | some _ =>
      match e.downloadResult with
      | .ok p => (.ret (some p) ("Download complete: " ++ title), 0)
      | .error ex => (.exc ex, 0)
    | none =>
      if resolution ≠ "highest" ∧ resolution ≠ "lowest" then
        match get_highest_resolution e.streams with
        | none => (.ret none "No video streams available for this video", 1)
        | some _ =>
          match e.downloadResult with
          | .ok p => (.ret (some p) ("Download complete: " ++ title), 1)
          | .error ex => (.exc ex, 1)
      else
        (.ret none ("No video stream found with resolution " ++ resolution), 0)

/-- Observable result of one `download_video` call.  `outcome = some (p, m)`
models the Python function returning the pair `(p, m)`; `outcome = none`
models the function falling off the end of its `while` loop and implicitly
returning `None` (no pair at all).  `sleeps` lists every `time.sleep`
duration in order, `fixCalls` counts `_fix_regex_patterns` invocations,
`attempts` counts executions of the `try` body, and `fallbacks` counts
fallback stream re-selections. -/
structure DownloadResult where
  outcome : Option (Option String × String)
  sleeps : List Nat
  fixCalls : Nat
  attempts : Nat
  fallbacks : Nat
  deriving Repr, DecidableEq

/-- `src/app.py` line 122: the terminal message for transient rejections. -/
def api_rejected_message : String :=
  "YouTube API rejected the request. Please try:\n1. pip install --upgrade pytube\n2. pip install git+https://github.com/pytube/pytube.git"

/-- `src/app.py` lines 44-138: the retry loop of `download_video`.  `rc` is
`retry_count`, `backoff` is `backoff_time`, `mr` is `max_retries` (Python
ints, modelled as `Int`; `backoff` stays non-negative so it is a `Nat`).
The `while` guard `retry_count <= max_retries` is re-checked exactly as in
the source at the top of each iteration.  Every iteration that does not
return increments `retry_count` by exactly 1, so from any state the loop
body can be entered at most `(mr + 1 - rc).toNat` more times; `gas` is that
bound, used only as structural-recursion fuel: at every state reachable
from `download_video` we have `gas = (mr + 1 - rc).toNat`, so the `gas = 0`
base case implies the guard `rc ≤ mr` is false and returns the very same
fall-off result as the guard-false branch. -/
def downloadLoop (env : Nat → AttemptEnv) (url resolution : String) (mr : Int) :
    Nat → Int → Nat → List Nat → Nat → Nat → Nat → DownloadResult
  | 0, _, _, sleeps, fixes, att, fb => ⟨none, sleeps, fixes, att, fb⟩
  | gas + 1, rc, backoff, sleeps, fixes, att, fb =>
    if rc ≤ mr then
      match runAttempt (env att) url resolution with
      | (.ret p m, nf) => ⟨some (p, m), sleeps, fixes, att + 1, fb + nf⟩
      | (.exc (.regexMatchError _), nf) =>
        if rc + 1 > mr then
          ⟨some (none, "Failed to parse YouTube page. YouTube may have changed their page structure."),
            sleeps, fixes + 1, att + 1, fb + nf⟩
        else
          downloadLoop env url resolution mr gas (rc + 1) backoff sleeps
            (fixes + 1) (att + 1) (fb + nf)
      | (.exc (.htmlParseError m), nf) =>
        if rc + 1 > mr then
          ⟨some (none, "Failed to parse YouTube HTML: " ++ m), sleeps, fixes,
            att + 1, fb + nf⟩
        else
          downloadLoop env url resolution mr gas (rc + 1) backoff sleeps
            fixes (att + 1) (fb + nf)
      | (.exc (.other m), nf) =>
        if isTransientMsg m then
          if rc + 1 > mr then
            ⟨some (none, api_rejected_message), sleeps, fixes + 1, att + 1, fb + nf⟩
          else
            downloadLoop env url resolution mr gas (rc + 1) (backoff * 2)
              (sleeps ++ [backoff]) (fixes + 1) (att + 1) (fb + nf)
        else if isRestrictedMsg m then
          ⟨some (none, "This video may be restricted or age-limited: " ++ m),
            sleeps, fixes, att + 1, fb + nf⟩
        else
          if rc + 1 > 1 then
            ⟨some (none, "Error downloading video: " ++ m), sleeps, fixes,
              att + 1, fb + nf⟩
          else
            downloadLoop env url resolution mr gas (rc + 1) backoff
              (sleeps ++ [1]) fixes (att + 1) (fb + nf)
    else ⟨none, sleeps, fixes, att, fb⟩

/-- `src/app.py` line 29, `download_video(url, resolution, max_retries)`:
runs the retry loop from `retry_count = 0`, `backoff_time = 1`. -/
def download_video (env : Nat → AttemptEnv) (url resolution : String)
    (mr : Int) : DownloadResult :=
  downloadLoop env url resolution mr (mr + 1).toNat 0 1 [] 0 0 0

/-- Environment whose collaborator behavior is the same at every attempt. -/
def constEnv (e : AttemptEnv) : Nat → AttemptEnv := fun _ => e

/-- `src/app.py` lines 176-184, `_on_progress`: when a caller-supplied
callback is registered, computes `(total_size - bytes_remaining) /
total_size * 100` and forwards it to the callback.  Python sizes are ints
and the division produces a float, modelled over `ℚ`; Python raises
`ZeroDivisionError` when `total_size = 0`, modelled as `Except.error`.
`Except.ok none` means the callback was not invoked; `Except.ok (some q)`
means the callback was invoked with value `q`. -/
def on_progress (progress_callback : Bool) (total_size bytes_remaining : Int) :
    Except String (Option ℚ) :=
  if progress_callback then
    if total_size = 0 then Except.error "ZeroDivisionError"
    else
      Except.ok (some (((total_size - bytes_remaining : Int) : ℚ) /
        (total_size : ℚ) * 100))
  else Except.ok none

/-- The progress formula as the spec words it (spec §4.2): the raw
percentage clamped to the interval [0, 100]. -/
def spec_clamped_percentage (total_size bytes_remaining : Int) : ℚ :=
  min 100 (max 0 (((total_size - bytes_remaining : Int) : ℚ) /
    (total_size : ℚ) * 100))

/-- Characters of `l` strictly after the first occurrence of `pat`; `[]`
when `pat` does not occur. -/
def afterSub (pat : List Char) : List Char → List Char
  | [] => []
  | c :: rest =>
    if chStartsWith pat (c :: rest) then (c :: rest).drop pat.length
    else afterSub pat rest

/-- The fallback identifier as claim C9 words it: the token standing between
the first "v=" of the URL and the next "&" after it, or "unknown" when the
URL has no "v=". -/
def claimed_video_token (url : String) : String :=
  if strContains url "v=" then
    (pySplit (String.mk (afterSub ("v=".toList) url.toList)) "&").getD 0 ""
  else "unknown"

/-- C1: the claim says every `download_video` call returns a two-element
`(path, message)` pair and the retry loop cannot be left without reaching
such a terminal result.  This evaluates the code at the failing input: with
`max_retries = 0` and the first attempt raising a generic error classified
as Unknown (no transient marker, no restriction marker), the unknown-error
handler increments `retry_count` to 1, sleeps 1 time unit, and the loop
guard `retry_count <= max_retries` then fails, so the function falls off
the end of the loop and implicitly returns Python `None` — no pair and no
terminal Outcome, contradicting the claim and the function's own
docstring. -/
theorem download_video_no_outcome_at_zero_retries_unknown_error :
    download_video (constEnv ⟨some (.other "boom"), none, [], .ok ""⟩)
        "u" "highest" 0 =
      ⟨none, [1], 0, 1, 0⟩ := by decide

/-- C2 counterexample: metadata fetch raises `RegexMatchError` on every
attempt with `max_retries = 2`; the call does not perform 2
pattern-recovery invocations and does not wait with backoff durations 1
then 2, refuting the claim as stated (the actual run makes 3 recovery
invocations and no wait at all). -/
theorem parse_failure_two_recoveries_two_waits_counterexample :
    ¬ ((download_video (constEnv ⟨some (.regexMatchError "r"), none, [], .ok ""⟩)
          "u" "highest" 2).fixCalls = 2 ∧
       (download_video (constEnv ⟨some (.regexMatchError "r"), none, [], .ok ""⟩)
          "u" "highest" 2).sleeps = [1, 2]) := by decide

/-- C2 amended: if metadata fetch fails with a `RegexMatchError` on every
attempt and `max_retries = 2`, the call performs exactly 3 pattern-recovery
invocations (one per `RegexMatchError` occurrence, that is `max_retries + 1`),
never sleeps (the `RegexMatchError` handler has no backoff wait), and after
3 attempts returns a failure Outcome whose message names a parse-related
cause. -/
theorem parse_failure_every_attempt_three_recoveries_no_waits
    (url resolution m : String) :
    download_video (constEnv ⟨some (.regexMatchError m), none, [], .ok ""⟩)
        url resolution 2 =
      ⟨some (none, "Failed to parse YouTube page. YouTube may have changed their page structure."),
        [], 3, 3, 0⟩ := rfl

/-- C3 counterexample: invoking the progress handler with total size 0 while
a caller-supplied callback is registered is not a no-op: the unguarded
division `(total_size - bytes_remaining) / total_size` raises a
`ZeroDivisionError`, refuting the claim that no division error is
raised. -/
theorem on_progress_zero_total_raises_division_error :
    on_progress true 0 0 = Except.error "ZeroDivisionError" := by decide

/-- C3 amended: with a registered callback and total size 0 the handler
raises a `ZeroDivisionError` (and never reaches the callback); it is a
no-op only when no caller-supplied callback is registered, in which case it
neither invokes anything nor divides. -/
theorem on_progress_zero_total_behavior :
    (∀ r : Int, on_progress true 0 r = Except.error "ZeroDivisionError") ∧
    (∀ t r : Int, on_progress false t r = Except.ok none) := by
  constructor
  · intro r
    simp [on_progress]
  · intro t r
    simp [on_progress]

/-- C4: if every attempt fails with a transient rejection (a message
carrying one of the transient markers) and `max_retries = 3`, the call
sleeps exactly 1, 2 and 4 time units in that order (doubling after each
wait), and returns the transient-rejection failure Outcome after the 4th
total attempt with no further wait. -/
theorem transient_rejection_backoff_one_two_four
    (url resolution m : String) (hT : isTransientMsg m = true) :
    download_video (constEnv ⟨some (.other m), none, [], .ok ""⟩)
        url resolution 3 =
      ⟨some (none, api_rejected_message), [1, 2, 4], 4, 4, 0⟩ := by
  simp [download_video, downloadLoop, runAttempt, constEnv, hT]

/-- C4 witness: the transient message "HTTP Error 400" exercises the
backoff sequence 1, 2, 4 with termination after the 4th attempt. -/
theorem transient_rejection_backoff_one_two_four_witness :
    download_video (constEnv ⟨some (.other "HTTP Error 400"), none, [], .ok ""⟩)
        "u" "highest" 3 =
      ⟨some (none, api_rejected_message), [1, 2, 4], 4, 4, 0⟩ :=
  transient_rejection_backoff_one_two_four "u" "highest" "HTTP Error 400" (by decide)

/-- C5: a failure classified as restricted content (no transient marker,
restriction marker present) terminates on its first occurrence with a
failure Outcome, no sleep and no retry; and a no-matching-stream failure
whose fallback re-selection also yields no stream likewise terminates on
the first occurrence with a failure Outcome, no sleep and no retry. -/
theorem restricted_and_exhausted_no_stream_terminate_without_wait :
    (∀ (m url resolution : String) (mr : Int), 0 ≤ mr →
      isTransientMsg m = false → isRestrictedMsg m = true →
      download_video (constEnv ⟨some (.other m), none, [], .ok ""⟩)
          url resolution mr =
        ⟨some (none, "This video may be restricted or age-limited: " ++ m),
          [], 0, 1, 0⟩) ∧
    (∀ (url resolution t : String) (mr : Int) (ss : List StreamDesc)
        (dl : Except PyExc String), 0 ≤ mr →
      resolution ≠ "highest" → resolution ≠ "lowest" →
      ss.find? (fun s => s.res == resolution) = none →
      get_highest_resolution ss = none →
      download_video (constEnv ⟨none, some t, ss, dl⟩) url resolution mr =
        ⟨some (none, "No video streams available for this video"),
          [], 0, 1, 1⟩) := by
  constructor
  · intro m url resolution mr h0 hT hR
    obtain ⟨g, hg⟩ : ∃ g, (mr + 1).toNat = g + 1 := ⟨(mr + 1).toNat - 1, by omega⟩
    simp [download_video, hg, downloadLoop, runAttempt, constEnv, hT, hR, h0]
  · intro url resolution t mr ss dl h0 hr1 hr2 hfind hfb
    obtain ⟨g, hg⟩ : ∃ g, (mr + 1).toNat = g + 1 := ⟨(mr + 1).toNat - 1, by omega⟩
    simp [download_video, hg, downloadLoop, runAttempt, constEnv, h0, hr1, hr2,
      hfind, hfb]

/-- C5 witness: a restricted-content message ("This video is age
restricted", which carries no transient marker) and an explicit 720p
request against an empty descriptor set both terminate immediately with no
sleep. -/
theorem restricted_and_exhausted_no_stream_terminate_without_wait_witness :
    download_video (constEnv ⟨some (.other "This video is age restricted"), none, [], .ok ""⟩)
        "u" "highest" 3 =
      ⟨some (none, "This video may be restricted or age-limited: " ++
        "This video is age restricted"), [], 0, 1, 0⟩ ∧
    download_video (constEnv ⟨none, some "T", [], .ok "P"⟩) "u" "720p" 3 =
      ⟨some (none, "No video streams available for this video"), [], 0, 1, 1⟩ :=
  ⟨restricted_and_exhausted_no_stream_terminate_without_wait.1
      "This video is age restricted" "u" "highest" 3 (by norm_num) (by decide) (by decide),
   restricted_and_exhausted_no_stream_terminate_without_wait.2
      "u" "720p" "T" 3 [] (.ok "P") (by norm_num) (by decide) (by decide)
      (by decide) (by decide)⟩

/-- C6: for an explicit quality label (neither "highest" nor "lowest")
matching no available descriptor, the call performs exactly one fallback
re-selection with highest: if the fallback yields a stream the download
proceeds with it (one fallback, immediate success), if the fallback also
yields no stream the call returns a terminal failure (one fallback, no
retry); and when the original specifier was "highest" or "lowest" and
selection fails, the call returns a terminal failure immediately with no
fallback re-selection at all. -/
theorem explicit_label_fallback_reselection_policy :
    (∀ (url resolution t p : String) (mr : Int) (ss : List StreamDesc)
        (v : StreamDesc), 0 ≤ mr →
      resolution ≠ "highest" → resolution ≠ "lowest" →
      ss.find? (fun s => s.res == resolution) = none →
      get_highest_resolution ss = some v →
      download_video (constEnv ⟨none, some t, ss, .ok p⟩) url resolution mr =
        ⟨some (some p, "Download complete: " ++ t), [], 0, 1, 1⟩) ∧
    (∀ (url resolution t : String) (mr : Int) (ss : List StreamDesc)
        (dl : Except PyExc String), 0 ≤ mr →
      resolution ≠ "highest" → resolution ≠ "lowest" →
      ss.find? (fun s => s.res == resolution) = none →
      get_highest_resolution ss = none →
      download_video (constEnv ⟨none, some t, ss, dl⟩) url resolution mr =
        ⟨some (none, "No video streams available for this video"),
          [], 0, 1, 1⟩) ∧
    (∀ (url t : String) (mr : Int) (dl : Except PyExc String), 0 ≤ mr →
      download_video (constEnv ⟨none, some t, [], dl⟩) url "highest" mr =
        ⟨some (none, "No video stream found with resolution " ++ "highest"),
          [], 0, 1, 0⟩) ∧
    (∀ (url t : String) (mr : Int) (dl : Except PyExc String), 0 ≤ mr →
      download_video (constEnv ⟨none, some t, [], dl⟩) url "lowest" mr =
        ⟨some (none, "No video stream found with resolution " ++ "lowest"),
          [], 0, 1, 0⟩) := by
  refine ⟨?_, ?_, ?_, ?_⟩
  · intro url resolution t p mr ss v h0 hr1 hr2 hfind hfb
    obtain ⟨g, hg⟩ : ∃ g, (mr + 1).toNat = g + 1 := ⟨(mr + 1).toNat - 1, by omega⟩
    simp [download_video, hg, downloadLoop, runAttempt, constEnv, h0, hr1, hr2,
      hfind, hfb]
  · intro url resolution t mr ss dl h0 hr1 hr2 hfind hfb
    obtain ⟨g, hg⟩ : ∃ g, (mr + 1).toNat = g + 1 := ⟨(mr + 1).toNat - 1, by omega⟩
    simp [download_video, hg, downloadLoop, runAttempt, constEnv, h0, hr1, hr2,
      hfind, hfb]
  · intro url t mr dl h0
    obtain ⟨g, hg⟩ : ∃ g, (mr + 1).toNat = g + 1 := ⟨(mr + 1).toNat - 1, by omega⟩
    simp [download_video, hg, downloadLoop, runAttempt, constEnv, h0,
      show get_highest_resolution [] = none from rfl]
  · intro url t mr dl h0
    obtain ⟨g, hg⟩ : ∃ g, (mr + 1).toNat = g + 1 := ⟨(mr + 1).toNat - 1, by omega⟩
    simp [download_video, hg, downloadLoop, runAttempt, constEnv, h0,
      show get_lowest_resolution [] = none from rfl]

/-- C6 witness: requesting "720p" when only a 360p descriptor exists falls
back (exactly one re-selection) and succeeds; requesting "720p" against an
empty descriptor set falls back once and fails terminally; requesting
"highest" or "lowest" against an empty descriptor set fails terminally with
no fallback. -/
theorem explicit_label_fallback_reselection_policy_witness :
    download_video (constEnv ⟨none, some "T", [⟨"360p"⟩], .ok "P"⟩) "u" "720p" 3 =
      ⟨some (some "P", "Download complete: " ++ "T"), [], 0, 1, 1⟩ ∧
    download_video (constEnv ⟨none, some "T", [], .ok "P"⟩) "u" "720p" 3 =
      ⟨some (none, "No video streams available for this video"), [], 0, 1, 1⟩ ∧
    download_video (constEnv ⟨none, some "T", [], .ok "P"⟩) "u" "highest" 3 =
      ⟨some (none, "No video stream found with resolution " ++ "highest"),
        [], 0, 1, 0⟩ ∧
    download_video (constEnv ⟨none, some "T", [], .ok "P"⟩) "u" "lowest" 3 =
      ⟨some (none, "No video stream found with resolution " ++ "lowest"),
        [], 0, 1, 0⟩ :=
  ⟨explicit_label_fallback_reselection_policy.1 "u" "720p" "T" "P" 3 [⟨"360p"⟩]
      ⟨"360p"⟩ (by norm_num) (by decide) (by decide) (by decide) (by decide),
   explicit_label_fallback_reselection_policy.2.1 "u" "720p" "T" 3 [] (.ok "P")
      (by norm_num) (by decide) (by decide) (by decide) (by decide),
   explicit_label_fallback_reselection_policy.2.2.1 "u" "T" 3 (.ok "P") (by norm_num),
   explicit_label_fallback_reselection_policy.2.2.2 "u" "T" 3 (.ok "P") (by norm_num)⟩

/-- C7 counterexample: with total size 100 and 200 bytes remaining, the
handler forwards the raw value -100, not the clamped value 0 demanded by
the claim, so the forwarded value does not equal the formula clamped to
[0, 100]. -/
theorem on_progress_clamping_counterexample :
    on_progress true 100 200 ≠
      Except.ok (some (spec_clamped_percentage 100 200)) := by
  norm_num [on_progress, spec_clamped_percentage]

/-- C7 amended: for every invocation with a non-zero total size the handler
forwards exactly the raw value `(total_size - bytes_remaining) / total_size
* 100`, with no clamping applied; this coincides with the clamped value
whenever `0 ≤ bytes_remaining ≤ total_size`, and in particular total size
200 with 50 bytes remaining forwards exactly 75. -/
theorem on_progress_raw_formula :
    (∀ t r : Int, t ≠ 0 →
      on_progress true t r =
        Except.ok (some (((t - r : Int) : ℚ) / (t : ℚ) * 100))) ∧
    (∀ t r : Int, 0 < t → 0 ≤ r → r ≤ t →
      ((t - r : Int) : ℚ) / (t : ℚ) * 100 = spec_clamped_percentage t r) ∧
    on_progress true 200 50 = Except.ok (some 75) := by
  refine ⟨?_, ?_, ?_⟩
  · intro t r ht
    simp [on_progress, ht]
  · intro t r ht h0 hrt
    have htq : (0:ℚ) < (t:ℚ) := by exact_mod_cast ht
    have h1 : (0:ℚ) ≤ ((t - r : Int) : ℚ) := by
      have h : (0:Int) ≤ t - r := by omega
      exact_mod_cast h
    have h2 : ((t - r : Int) : ℚ) ≤ (t : ℚ) := by
      have h : (t - r : Int) ≤ t := by omega
      exact_mod_cast h
    have hx0 : (0:ℚ) ≤ ((t - r : Int) : ℚ) / (t:ℚ) * 100 :=
      mul_nonneg (div_nonneg h1 htq.le) (by norm_num)
    have hx1 : ((t - r : Int) : ℚ) / (t:ℚ) * 100 ≤ 100 := by
      have hq : ((t - r : Int) : ℚ) / (t:ℚ) ≤ 1 := (div_le_one htq).mpr h2
      calc ((t - r : Int) : ℚ) / (t:ℚ) * 100 ≤ 1 * 100 :=
            mul_le_mul_of_nonneg_right hq (by norm_num)
        _ = 100 := one_mul _
    rw [spec_clamped_percentage, max_eq_right hx0, min_eq_right hx1]
  · norm_num [on_progress]

/-- C7 witness: at total size 200 and 50 bytes remaining the handler
forwards the raw formula value, and that value equals the clamped spec
formula there. -/
theorem on_progress_raw_formula_witness :
    on_progress true 200 50 =
      Except.ok (some (((200 - 50 : Int) : ℚ) / ((200 : Int) : ℚ) * 100)) ∧
    ((200 - 50 : Int) : ℚ) / ((200 : Int) : ℚ) * 100 =
      spec_clamped_percentage 200 50 :=
  ⟨on_progress_raw_formula.1 200 50 (by norm_num),
   on_progress_raw_formula.2.1 200 50 (by norm_num) (by norm_num) (by norm_num)⟩

/-- C8: when every attempt fails with an error classified as Unknown (no
transient marker, no restriction marker, not a parse error) and
`max_retries ≥ 1`, the call retries exactly once after a fixed wait of 1
time unit (not a growing backoff), and returns the terminal Unknown-error
failure Outcome on the second occurrence. -/
theorem unknown_error_single_fixed_delay_retry
    (url resolution m : String) (mr : Int) (h1 : 1 ≤ mr)
    (hT : isTransientMsg m = false) (hR : isRestrictedMsg m = false) :
    download_video (constEnv ⟨some (.other m), none, [], .ok ""⟩)
        url resolution mr =
      ⟨some (none, "Error downloading video: " ++ m), [1], 0, 2, 0⟩ := by
  obtain ⟨g, hg⟩ : ∃ g, (mr + 1).toNat = g + 2 := ⟨(mr + 1).toNat - 2, by omega⟩
  have h0 : (0:Int) ≤ mr := by omega
  simp [download_video, hg, downloadLoop, runAttempt, constEnv, hT, hR, h0, h1]

/-- C8 witness: the message "boom" matches no transient and no restriction
marker; with `max_retries = 3` the call sleeps once for 1 time unit and
terminates on the second occurrence. -/
theorem unknown_error_single_fixed_delay_retry_witness :
    download_video (constEnv ⟨some (.other "boom"), none, [], .ok ""⟩)
        "u" "highest" 3 =
      ⟨some (none, "Error downloading video: " ++ "boom"), [1], 0, 2, 0⟩ :=
  unknown_error_single_fixed_delay_retry "u" "highest" "boom" 3
    (by norm_num) (by decide) (by decide)

/-- C9 counterexample: for the URL "https://w/watch?v=av=b&c" (where a
second "v=" occurs before the "&"), a title-resolution failure produces the
fallback title "youtube_a" — Python's `split("v=")[1]` stops at the second
"v=" — while the claim's described token between "v=" and the next "&" is
"av=b"; the produced Outcome therefore differs from the claim's predicted
one. -/
theorem fallback_title_token_counterexample :
    (download_video (constEnv ⟨none, none, [⟨"360p"⟩], .ok "P"⟩)
        "https://w/watch?v=av=b&c" "highest" 3).outcome ≠
      some (some "P", "Download complete: " ++
        ("youtube_" ++ claimed_video_token "https://w/watch?v=av=b&c")) := by
  decide

/-- C9 amended: if resolving the video title fails, the attempt proceeds
with the fallback title "youtube_" prefixed to a token derived
deterministically from the URL — the segment after the first "v=" and
before the next "v=" (Python split semantics), truncated at the first "&",
or the fixed token "unknown" when the URL has no "v=" — and a
title-resolution failure by itself causes no retry, no sleep and no failure
Outcome: the download completes on the first attempt. -/
theorem title_failure_uses_fallback_id_and_proceeds
    (url p : String) (mr : Int) (ss : List StreamDesc) (v : StreamDesc)
    (h0 : 0 ≤ mr) (hs : get_highest_resolution ss = some v) :
    download_video (constEnv ⟨none, none, ss, .ok p⟩) url "highest" mr =
      ⟨some (some p, "Download complete: " ++
        ("youtube_" ++ extract_video_id url)), [], 0, 1, 0⟩ := by
  obtain ⟨g, hg⟩ : ∃ g, (mr + 1).toNat = g + 1 := ⟨(mr + 1).toNat - 1, by omega⟩
  simp [download_video, hg, downloadLoop, runAttempt, constEnv, h0, hs]

/-- C9 witness: a title failure on a normal watch URL proceeds on the first
attempt with the fallback title derived from the URL's video id. -/
theorem title_failure_uses_fallback_id_and_proceeds_witness :
    download_video (constEnv ⟨none, none, [⟨"360p"⟩], .ok "P"⟩)
        "https://www.youtube.com/watch?v=dQw4&t=1s" "highest" 3 =
      ⟨some (some "P", "Download complete: " ++
        ("youtube_" ++ extract_video_id "https://www.youtube.com/watch?v=dQw4&t=1s")),
        [], 0, 1, 0⟩ :=
  title_failure_uses_fallback_id_and_proceeds
    "https://www.youtube.com/watch?v=dQw4&t=1s" "P" 3 [⟨"360p"⟩] ⟨"360p"⟩
    (by norm_num) (by decide)

/-- C10: a generic failure whose message carries both a transient marker and
a restriction marker is handled as a transient rejection — pattern recovery
plus exponential-backoff retries ending in the transient terminal message —
and never as terminal restricted content, because the transient check is
evaluated first (shown here at `max_retries = 3`: 4 recovery invocations,
backoff waits 1, 2, 4, and the transient terminal message rather than the
restricted one). -/
theorem transient_marker_takes_precedence_over_restriction
    (url resolution m : String)
    (hT : isTransientMsg m = true) (hR : isRestrictedMsg m = true) :
    download_video (constEnv ⟨some (.other m), none, [], .ok ""⟩)
        url resolution 3 =
      ⟨some (none, api_rejected_message), [1, 2, 4], 4, 4, 0⟩ := by
  simp [download_video, downloadLoop, runAttempt, constEnv, hT]

/-- C10 witness: "HTTP Error 400: video unavailable" carries the transient
marker "HTTP Error 400" and the restriction marker "unavailable", and is
handled entirely on the transient path. -/
theorem transient_marker_takes_precedence_over_restriction_witness :
    download_video
        (constEnv ⟨some (.other "HTTP Error 400: video unavailable"), none, [], .ok ""⟩)
        "u" "highest" 3 =
      ⟨some (none, api_rejected_message), [1, 2, 4], 4, 4, 0⟩ :=
  transient_marker_takes_precedence_over_restriction "u" "highest"
    "HTTP Error 400: video unavailable" (by decide) (by decide)
